import Mathlib

/-!
Shallow embedding of `src/lib/node-progress.js` (myndzi/node-progress).

JavaScript numbers are modelled by `ℤ` for integer-valued state (`curr`,
`total`, widths) and `ℚ` for derived arithmetic (ratios, elapsed time,
ETA).  The NaN/Infinity results of the ETA computation are modelled by
`Option ℚ` (`none` = not-a-number or infinite).  Side effects on the
output stream and the invocation of the completion callback are recorded
as an explicit event trace (`List Ev`).
-/

namespace NodeProgress

/-- The capability surface of the output stream: `isTTY` and `columns`
are the only properties the source reads. -/
structure Stream where
  isTTY : Bool
  columns : Nat
deriving DecidableEq

/-- User token map, `this.tokens`; JS object iteration order is modelled
by list order. -/
abbrev Tokens := List (String × String)

/-- Observable effects: stream writes / cursor operations performed by
`render`/`terminate`, and the invocation of the completion callback. -/
inductive Ev where
  | cursorTo (n : ℤ)
  | write (s : String)
  | clearLine (dir : ℤ)
  | clearLineFull
  | callback
deriving DecidableEq

/-- Result of `ProgressBar.mkUnits`: `{ labels: labels, values: values }`. -/
structure UnitTable where
  labels : List String
  values : List ℚ
deriving DecidableEq

/-- Stable insertion of one entry into a value-sorted list; together with
`sortUnits` this models `Array.prototype.sort` with the comparator
`(a, b) => a.value - b.value` (a stable ascending sort). -/
def insortUnit (x : String × ℚ) : List (String × ℚ) → List (String × ℚ)
  | [] => [x]
  | y :: ys => if x.2 ≤ y.2 then x :: y :: ys else y :: insortUnit x ys

/-- Stable ascending sort by unit value. -/
def sortUnits : List (String × ℚ) → List (String × ℚ)
  | [] => []
  | x :: xs => insortUnit x (sortUnits xs)

/-- `ProgressBar.mkUnits`: sorts the label/value pairs ascending by value
and splits them into parallel `labels`/`values` arrays. -/
def mkUnits (obj : List (String × ℚ)) : UnitTable :=
  let arr := sortUnits obj
  ⟨arr.map Prod.fst, arr.map Prod.snd⟩

/-- `ProgressBar.defaultUnits` (source lines 79-83); JS object key order
is insertion order `h`, `m`, `s`. -/
def defaultUnits : List (String × ℚ) := [("h", 3600), ("m", 60), ("s", 1)]

/-- `this.chars`. -/
structure Chars where
  complete : String
  incomplete : String
deriving DecidableEq

/-- The mutable state of a `ProgressBar` instance.  `renderThrottleTimeout`
(a timer handle or `null` in the source) is modelled by a `Bool`:
`true` = a timer handle is stored, `false` = `null`/unset.  `start`
(`this.start`, a `Date`) is an optional timestamp. -/
structure Bar where
  stream : Stream
  fmt : String
  curr : ℤ
  total : ℤ
  units : UnitTable
  width : ℤ
  clear : Bool
  chars : Chars
  renderThrottle : ℤ
  tokens : Tokens
  lastDraw : String
  complete : Bool
  start : Option ℤ
  renderThrottleTimeout : Bool
deriving DecidableEq

/-- `Number.prototype.toFixed(1)` for a non-negative rational: round to
the nearest tenth, ties away from zero. -/
def toFixed1abs (q : ℚ) : String :=
  let n := (⌊q * 10 + 1 / 2⌋).toNat
  toString (n / 10) ++ "." ++ toString (n % 10)

/-- `Number.prototype.toFixed(1)` (ES semantics: a negative argument is
formatted as `"-"` followed by the format of its negation). -/
def toFixed1 (q : ℚ) : String :=
  if q < 0 then "-" ++ toFixed1abs (-q) else toFixed1abs q

/-- `Number.prototype.toFixed(0)` for a non-negative rational. -/
def toFixed0abs (q : ℚ) : String := toString (⌊q + 1 / 2⌋).toNat

/-- `Number.prototype.toFixed(0)`. -/
def toFixed0 (q : ℚ) : String :=
  if q < 0 then "-" ++ toFixed0abs (-q) else toFixed0abs q

/-- `Math.round`: round half towards positive infinity. -/
def jsRound (q : ℚ) : ℤ := ⌊q + 1 / 2⌋

/-- Lines 205-206 of the source:
`var eta = (percent == 100) ? 0 : elapsed * (this.total / this.curr - 1); eta /= 1000;`
`none` models a NaN or infinite result (NaN `elapsed`, or division by
zero when `curr == 0`). -/
def etaSeconds (elapsed : Option ℚ) (percent : ℚ) (total curr : ℤ) : Option ℚ :=
  if percent = 100 then some 0
  else
    match elapsed with
    | none => none
    | some e => if curr = 0 then none else some (e * ((total : ℚ) / (curr : ℚ) - 1) / 1000)

/-- The index-selection loop `while (i > 0 && eta < values[i]) i--;`
starting from the given index. -/
def selGo (values : List ℚ) (eta : ℚ) : Nat → Nat
  | 0 => 0
  | i + 1 => if eta < values.getD (i + 1) 0 then selGo values eta i else i + 1

/-- The division loop `while (i > 0) { eta /= values[i--]; }`. -/
def divChain (values : List ℚ) (eta : ℚ) : Nat → ℚ
  | 0 => eta
  | i + 1 => divChain values (eta / values.getD (i + 1) 0) i

/-- `prodSeg v i = v[1] * v[2] * ... * v[i]`: the product of the scale
factors from index 1 up to (and including) index `i`; the closed form of
the chained successive divisions performed by `divChain`. -/
def prodSeg (values : List ℚ) : Nat → ℚ
  | 0 => 1
  | i + 1 => prodSeg values i * values.getD (i + 1) 0

/-- Result object of `ProgressBar.prototype.estimate`.  The source's two
return statements use *different* keys: the NaN-guard branch returns
`{ eta: '0.0', suffix }` while the main branch returns
`{ value: eta.toFixed(1), suffix }`; both keys are therefore modelled as
optional fields (`none` = the property is absent, i.e. `undefined`). -/
structure EstResult where
  value : Option String
  eta : Option String
  suffix : String
deriving DecidableEq

/-- `ProgressBar.prototype.estimate` (source lines 204-233).  The label
lookups `labels[i]` model JS out-of-range access (`undefined`) with the
`"undefined"` default string. -/
def estimate (u : UnitTable) (total curr : ℤ) (elapsed : Option ℚ) (percent : ℚ) : EstResult :=
  match etaSeconds elapsed percent total curr with
  | none => ⟨none, some "0.0", u.labels.getD (u.values.length - 1) "undefined"⟩
  | some eta0 =>
      ⟨some (toFixed1 (divChain u.values eta0 (selGo u.values eta0 (u.values.length - 1)))),
       none,
       u.labels.getD (selGo u.values eta0 (u.values.length - 1)) "undefined"⟩

/-- `listStarts pat l` is true when `pat` is an initial segment of `l`. -/
def listStarts (pat l : List Char) : Bool :=
  match pat, l with
  | [], _ => true
  | _ :: _, [] => false
  | p :: ps, c :: cs => p == c && listStarts ps cs

/-- First-occurrence replacement over character lists. -/
def replaceFirstChars (pat rep : List Char) : List Char → List Char
  | [] => []
  | c :: rest =>
      if listStarts pat (c :: rest) then rep ++ (c :: rest).drop pat.length
      else c :: replaceFirstChars pat rep rest

/-- `String.prototype.replace(pat, rep)` with plain-string arguments:
replaces the first occurrence only. -/
def replaceFirstStr (s pat rep : String) : String :=
  String.mk (replaceFirstChars pat.data rep.data s.data)

/-- `Array(n + 1).join(s)`: `n` copies of `s`. -/
def strRepeat (s : String) : Nat → String
  | 0 => ""
  | n + 1 => s ++ strRepeat s n

/-- Lines 157-158: `var ratio = this.curr / this.total;`
`ratio = Math.min(Math.max(ratio, 0), 1);` -/
def clampRatio (b : Bar) : ℚ :=
  min (max ((b.curr : ℚ) / (b.total : ℚ)) 0) 1

/-- `new Date - this.start`: NaN (`none`) when `this.start` is unset. -/
def elapsedOf (b : Bar) (now : ℤ) : Option ℚ :=
  b.start.map fun s => ((now - s : ℤ) : ℚ)

/-- Lines 160-172: the template after the built-in substitutions
`:current`, `:total`, `:elapsed`, `:eta`, `:unit`, `:percent` (in source
order), before the `:bar` fill.  A `:eta` replacement with the absent
`value` property prints `"undefined"`, as JS string coercion does. -/
def preBarStr (b : Bar) (now : ℤ) : String :=
  let ratio := clampRatio b
  let percent := ratio * 100
  let elapsed := elapsedOf b now
  let eta := estimate b.units b.total b.curr elapsed percent
  replaceFirstStr
    (replaceFirstStr
      (replaceFirstStr
        (replaceFirstStr
          (replaceFirstStr
            (replaceFirstStr b.fmt ":current" (toString b.curr))
            ":total" (toString b.total))
          ":elapsed" (match elapsed with | none => "0.0" | some e => toFixed1 (e / 1000)))
        ":eta" (eta.value.getD "undefined"))
      ":unit" eta.suffix)
    ":percent" (toFixed0 percent ++ "%")

/-- Line 175: `Math.max(0, this.stream.columns - str.replace(':bar', '').length)`. -/
def availableSpace (b : Bar) (now : ℤ) : ℤ :=
  max 0 ((b.stream.columns : ℤ) - ((replaceFirstStr (preBarStr b now) ":bar" "").length : ℤ))

/-- Line 176: `var width = Math.min(this.width, availableSpace);`. -/
def effWidth (b : Bar) (now : ℤ) : ℤ :=
  min b.width (availableSpace b now)

/-- Line 179: `completeLength = Math.round(width * ratio);`. -/
def completeLength (b : Bar) (now : ℤ) : ℤ :=
  jsRound ((effWidth b now : ℚ) * clampRatio b)

/-- Lines 180-181: the complete glyphs followed by the incomplete glyphs. -/
def barGlyphs (b : Bar) (now : ℤ) : String :=
  strRepeat b.chars.complete (completeLength b now).toNat ++
    strRepeat b.chars.incomplete (effWidth b now - completeLength b now).toNat

/-- Lines 184-187: fill in `:bar`, then apply the user tokens
(`for (var key in this.tokens) str = str.replace(':' + key, ...)`). -/
def renderedLine (b : Bar) (now : ℤ) : String :=
  b.tokens.foldl (fun s kv => replaceFirstStr s (":" ++ kv.1) kv.2)
    (replaceFirstStr (preBarStr b now) ":bar" (barGlyphs b now))

/-- The body of `render` after the timer/tokens bookkeeping: the TTY
check, the line computation, and the last-draw-guarded write. -/
def renderCore (now : ℤ) (b1 : Bar) : Bar × List Ev :=
  if b1.stream.isTTY = false then (b1, [])
  else if b1.lastDraw ≠ renderedLine b1 now then
    ({ b1 with lastDraw := renderedLine b1 now },
     [Ev.cursorTo 0, Ev.write (renderedLine b1 now), Ev.clearLine 1])
  else (b1, [])

/-- `ProgressBar.prototype.render` (source lines 149-195).  First the
pending throttle timer is cleared and nulled and a supplied `tokens`
argument replaces `this.tokens`; only then is the TTY check made. -/
def render (tok : Option Tokens) (now : ℤ) (b : Bar) : Bar × List Ev :=
  renderCore now { b with renderThrottleTimeout := false, tokens := tok.getD b.tokens }

/-- `ProgressBar.prototype.terminate` (source lines 262-267). -/
def terminateEvs (b : Bar) : List Ev :=
  if b.clear && b.stream.isTTY then [Ev.clearLineFull, Ev.cursorTo 0]
  else [Ev.write "\n"]

/-- The first argument of `tick`: a number, a tokens object, or omitted. -/
inductive TickArg where
  | num (n : ℤ)
  | obj (t : Tokens)
  | undef
deriving DecidableEq

/-- Resolution of `len`: `if (len !== 0) len = len || 1;` followed by
the object swap `if ('object' == typeof len) tokens = len, len = 1;`. -/
def tickLen : TickArg → ℤ
  | .num n => n
  | .obj _ => 1
  | .undef => 1

/-- The tokens actually stored: a tokens object passed as first argument
overrides the second argument. -/
def tickTokens : TickArg → Option Tokens → Option Tokens
  | .obj t, _ => some t
  | _, tok => tok

/-- Lines 117-129 of `tick`: token swap/merge, lazy `start` capture,
`this.curr += len`, and throttled render scheduling (the timer handle is
set when none is pending). -/
def tickPre (arg : TickArg) (tok : Option Tokens) (now : ℤ) (b : Bar) : Bar :=
  { b with
    tokens := (tickTokens arg tok).getD b.tokens
    start := if b.curr = 0 then some now else b.start
    curr := b.curr + tickLen arg
    renderThrottleTimeout :=
      if b.renderThrottleTimeout = false then true else b.renderThrottleTimeout }

/-- Lines 134-137: `this.complete = true; this.terminate(); this.callback(this);`. -/
def tickComplete (rp : Bar × List Ev) : Bar × List Ev :=
  ({ rp.1 with complete := true }, rp.2 ++ terminateEvs rp.1 ++ [Ev.callback])

/-- Lines 131-138: the completion check `if (this.curr >= this.total)`,
which first flushes a pending render (`if (this.renderThrottleTimeout)
this.render();`). -/
def tickFinish (now : ℤ) (b4 : Bar) : Bar × List Ev :=
  if b4.total ≤ b4.curr then
    tickComplete (if b4.renderThrottleTimeout then render none now b4 else (b4, []))
  else (b4, [])

/-- `ProgressBar.prototype.tick` (source lines 113-139). -/
def tick (arg : TickArg) (tok : Option Tokens) (now : ℤ) (b : Bar) : Bar × List Ev :=
  tickFinish now (tickPre arg tok now b)

/-- `ProgressBar.prototype.update` (source lines 249-254):
`var goal = Math.floor(ratio * this.total); var delta = goal - this.curr;
this.tick(delta, tokens);`. -/
def update (ratio : ℚ) (tok : Option Tokens) (now : ℤ) (b : Bar) : Bar × List Ev :=
  tick (TickArg.num (⌊ratio * (b.total : ℚ)⌋ - b.curr)) tok now b

/-- The options object accepted by the constructor; `none` models an
absent (`undefined`) property. -/
structure Opts where
  stream : Option Stream := none
  total : Option ℤ := none
  width : Option ℤ := none
  units : Option (List (String × ℚ)) := none
  complete : Option String := none
  incomplete : Option String := none
  renderThrottle : Option ℤ := none
  clear : Option Bool := none

/-- The second constructor argument: an options object, a bare number
(shorthand for `{ total }`), or omitted. -/
inductive CtorArg where
  | num (n : ℤ)
  | obj (o : Opts)
  | undef

/-- Synchronous constructor failures.  `typeErrorOptionsUndefined` is the
TypeError raised by `options.stream` when `options` is `undefined`/`null`
(line 45 runs before the `options = options || {}` guard). -/
inductive CtorErr where
  | typeErrorOptionsUndefined
  | invalidStream
  | formatRequired
  | totalRequired
deriving DecidableEq

/-- JS `x || d` for an optional number (`0` and absent are falsy). -/
def jsOrInt (x : Option ℤ) (d : ℤ) : ℤ :=
  match x with
  | some v => if v = 0 then d else v
  | none => d

/-- JS `x || d` for an optional string (`""` and absent are falsy). -/
def jsOrStr (x : Option String) (d : String) : String :=
  match x with
  | some v => if v = "" then d else v
  | none => d

/-- Line 70: `options.renderThrottle !== 0 ? (options.renderThrottle || 16) : 0`. -/
def rtOf (x : Option ℤ) : ℤ :=
  match x with
  | some v => if v = 0 then 0 else v
  | none => 16

/-- Field initialisation, source lines 60-73.  In particular line 63:
`this.units = ProgressBar.mkUnits(options.units || { 's': 1 });` — the
default table is `{ s: 1 }`, not `ProgressBar.defaultUnits`. -/
def buildBar (fmt : String) (o : Opts) (total : ℤ) (stream : Stream) : Bar :=
  { stream := stream
    fmt := fmt
    curr := 0
    total := total
    units := mkUnits (o.units.getD [("s", 1)])
    width := jsOrInt o.width total
    clear := o.clear.getD false
    chars := ⟨jsOrStr o.complete "=", jsOrStr o.incomplete "-"⟩
    renderThrottle := rtOf o.renderThrottle
    tokens := []
    lastDraw := ""
    complete := false
    start := none
    renderThrottleTimeout := false }

/-- The `ProgressBar` constructor (source lines 44-74).  `fmt = none`
models a non-string first argument; `processStderr` is the ambient
`process.stderr`.  Note: in the bare-number shorthand neither the format
nor the total type is checked. -/
def construct (fmt : Option String) (arg : CtorArg) (processStderr : Option Stream) :
    Except CtorErr Bar :=
  match arg with
  | .undef => .error .typeErrorOptionsUndefined
  | .num n =>
      match processStderr with
      | none => .error .invalidStream
      | some st => .ok (buildBar (fmt.getD "") {} n st)
  | .obj o =>
      match (match o.stream with | some s => some s | none => processStderr) with
      | none => .error .invalidStream
      | some st =>
          match fmt with
          | none => .error .formatRequired
          | some f =>
              match o.total with
              | none => .error .totalRequired
              | some t => .ok (buildBar f o t st)

/-- `true` iff construction succeeded (did not throw). -/
def ctorOk (e : Except CtorErr Bar) : Bool :=
  match e with
  | .ok _ => true
  | .error _ => false

/-- The sink the constructor resolves: `options.stream || process.stderr`. -/
def resolvedSink (arg : CtorArg) (ps : Option Stream) : Option Stream :=
  match arg with
  | .obj o => match o.stream with | some s => some s | none => ps
  | _ => ps

/-- The throw condition asserted by the specification: no resolvable
sink, or a non-string format, or an invalid total (in the options-object
form an absent/non-number `total`; the bare-number shorthand always
carries a numeric total, and an absent options argument has none). -/
def totalInvalid : CtorArg → Prop
  | .obj o => o.total = none
  | .num _ => False
  | .undef => True

/-- The specification's claimed characterisation of construction failure. -/
def claimedCtorThrow (fmt : Option String) (arg : CtorArg) (ps : Option Stream) : Prop :=
  resolvedSink arg ps = none ∨ fmt = none ∨ totalInvalid arg

/-- A non-interactive demonstration sink. -/
def demoStream : Stream := ⟨false, 80⟩

/-- An interactive demonstration sink. -/
def demoStreamTTY : Stream := ⟨true, 40⟩

/-- Fallback bar used only to totalise `mkSimple`. -/
def defaultBar : Bar := buildBar "" {} 0 demoStream

/-- `new ProgressBar('t', { total: total, stream: <non-TTY sink> })`. -/
def mkSimple (total : ℤ) : Bar :=
  ((construct (some "t") (CtorArg.obj { total := some total, stream := some demoStream })
      none).toOption).getD defaultBar

/-- `new ProgressBar(':bar', { total: 4, stream: <TTY sink> })`. -/
def mkSimpleTTY : Bar :=
  ((construct (some ":bar") (CtorArg.obj { total := some 4, stream := some demoStreamTTY })
      none).toOption).getD defaultBar

/-- Whether an event trace contains a write to the sink. -/
def hasWrite (evs : List Ev) : Bool :=
  evs.any fun e => match e with | .write _ => true | _ => false

/-- A two-unit table (seconds and minutes) used for concrete checks. -/
def demoUnits : UnitTable := mkUnits [("s", 1), ("m", 60)]

/-! ### Helper lemmas about `render`, `tick` and the event traces -/

theorem renderCore_fst_curr (now : ℤ) (b1 : Bar) : ((renderCore now b1).1).curr = b1.curr := by
  unfold renderCore
  split
  · rfl
  · split <;> rfl

theorem render_fst_curr (tok : Option Tokens) (now : ℤ) (b : Bar) :
    ((render tok now b).1).curr = b.curr := by
  unfold render
  rw [renderCore_fst_curr]

theorem callback_not_mem_renderCore (now : ℤ) (b1 : Bar) :
    Ev.callback ∉ (renderCore now b1).2 := by
  unfold renderCore
  split
  · simp
  · split <;> simp

theorem callback_not_mem_render (tok : Option Tokens) (now : ℤ) (b : Bar) :
    Ev.callback ∉ (render tok now b).2 := by
  unfold render
  exact callback_not_mem_renderCore _ _

theorem tickComplete_fst_curr (rp : Bar × List Ev) :
    ((tickComplete rp).1).curr = rp.1.curr := rfl

theorem callback_mem_tickComplete (rp : Bar × List Ev) :
    Ev.callback ∈ (tickComplete rp).2 := by
  unfold tickComplete
  simp

theorem tick_fst_curr (arg : TickArg) (tok : Option Tokens) (now : ℤ) (b : Bar) :
    ((tick arg tok now b).1).curr = b.curr + tickLen arg := by
  unfold tick tickFinish
  by_cases h : (tickPre arg tok now b).total ≤ (tickPre arg tok now b).curr
  · rw [if_pos h, tickComplete_fst_curr]
    have hc : ((if (tickPre arg tok now b).renderThrottleTimeout then
        render none now (tickPre arg tok now b)
        else ((tickPre arg tok now b), [])).1).curr = (tickPre arg tok now b).curr := by
      split
      · exact render_fst_curr _ _ _
      · rfl
    rw [hc]
    rfl
  · rw [if_neg h]
    rfl

/-! ### Helper lemmas about the estimator's selection and division loops -/

theorem selGo_le (v : List ℚ) (e : ℚ) : ∀ i, selGo v e i ≤ i
  | 0 => Nat.le_refl 0
  | i + 1 => by
      unfold selGo
      split
      · exact Nat.le_trans (selGo_le v e i) (Nat.le_succ i)
      · exact Nat.le_refl _

theorem selGo_val_le (v : List ℚ) (e : ℚ) : ∀ i, 0 < selGo v e i → v.getD (selGo v e i) 0 ≤ e
  | 0 => by intro h; exact absurd h (by simp [selGo])
  | i + 1 => by
      unfold selGo
      split
      · exact selGo_val_le v e i
      · next hlt =>
          intro _
          exact le_of_not_lt hlt

theorem le_selGo (v : List ℚ) (e : ℚ) :
    ∀ i j, j ≤ i → v.getD j 0 ≤ e → j ≤ selGo v e i
  | 0, j, hj, _ => by simpa [selGo] using hj
  | i + 1, j, hj, hv => by
      unfold selGo
      split
      · next hlt =>
          have hji : j ≤ i := by
            rcases Nat.lt_or_ge j (i + 1) with h | h
            · omega
            · have hje : j = i + 1 := Nat.le_antisymm hj h
              rw [hje] at hv
              exact absurd hv (not_le.mpr hlt)
          exact le_selGo v e i j hji hv
      · exact hj

theorem divChain_prodSeg (v : List ℚ) :
    ∀ (i : Nat) (e : ℚ), divChain v e i = e / prodSeg v i
  | 0, e => by simp [divChain, prodSeg]
  | i + 1, e => by
      unfold divChain prodSeg
      rw [divChain_prodSeg v i (e / v.getD (i + 1) 0)]
      rw [div_div]
      rw [mul_comm]

theorem sorted_getD_zero_le (v : List ℚ) (hs : List.Sorted (· ≤ ·) v)
    (j : Nat) (hj : j < v.length) : v.getD 0 0 ≤ v.getD j 0 := by
  have h0 : 0 < v.length := Nat.lt_of_le_of_lt (Nat.zero_le _) hj
  rw [List.getD_eq_getElem v 0 h0, List.getD_eq_getElem v 0 hj]
  have hab : (⟨0, h0⟩ : Fin v.length) ≤ (⟨j, hj⟩ : Fin v.length) := Nat.zero_le j
  have := hs.rel_get_of_le hab
  simpa [List.get_eq_getElem] using this

/-! ### Claim theorems -/

/-- C1 (counterexample): completion is NOT idempotent.  On a bar with
`total = 2`, the tick `tick(2)` crosses the total and fires the
completion callback — and a later `tick(1)` (a further positive delta
while `current >= total`) fires the terminate write and the callback
AGAIN, contradicting the claim that no later tick re-invokes them. -/
theorem C1_counterexample :
    Ev.callback ∈ (tick (TickArg.num 2) none 0 (mkSimple 2)).2 ∧
    2 ≤ ((tick (TickArg.num 2) none 0 (mkSimple 2)).1).curr ∧
    Ev.callback ∈
      (tick (TickArg.num 1) none 1 ((tick (TickArg.num 2) none 0 (mkSimple 2)).1)).2 ∧
    Ev.write "\n" ∈
      (tick (TickArg.num 1) none 1 ((tick (TickArg.num 2) none 0 (mkSimple 2)).1)).2 := by
  decide

/-- C1 (amended): every `tick` call whose post-increment `current` is
`>= total` runs the completion logic — `terminate()` and the completion
callback — not only the first one; the `complete` flag is set but never
consulted.  Formally: a tick's event trace contains the callback
invocation exactly when the updated `current` has reached `total`. -/
theorem C1_theorem :
    ∀ (b : Bar) (arg : TickArg) (tok : Option Tokens) (now : ℤ),
      Ev.callback ∈ (tick arg tok now b).2 ↔
        b.total ≤ ((tick arg tok now b).1).curr := by
  intro b arg tok now
  unfold tick tickFinish
  by_cases h : (tickPre arg tok now b).total ≤ (tickPre arg tok now b).curr
  · rw [if_pos h]
    constructor
    · intro _
      rw [tickComplete_fst_curr]
      have hc : ((if (tickPre arg tok now b).renderThrottleTimeout then
          render none now (tickPre arg tok now b)
          else ((tickPre arg tok now b), [])).1).curr = (tickPre arg tok now b).curr := by
        split
        · exact render_fst_curr _ _ _
        · rfl
      rw [hc]
      exact h
    · intro _
      exact callback_mem_tickComplete _
  · rw [if_neg h]
    constructor
    · intro hmem
      exact absurd hmem (by simp)
    · intro hle
      exact absurd hle h

/-- C2 (code evaluation): a bar constructed without a `units` option gets
the unit table `labels = ["s"], values = [1]` — the constructor's default
is `{ s: 1 }` (line 63), not `ProgressBar.defaultUnits`; sorting
`defaultUnits` would give `(s,1),(m,60),(h,3600)` as the claim states,
but the constructor never references it. -/
theorem C2_theorem :
    ((construct (some "t") (CtorArg.obj { total := some 10 }) (some demoStream)).toOption.map
        Bar.units) = some ⟨["s"], [1]⟩ ∧
    mkUnits defaultUnits = ⟨["s", "m", "h"], [1, 60, 3600]⟩ ∧
    (⟨["s"], [1]⟩ : UnitTable) ≠ ⟨["s", "m", "h"], [1, 60, 3600]⟩ := by
  refine ⟨by decide, by decide, by decide⟩

/-- C3 (counterexample): on the degenerate-numeric path (`current = 0`
with a two-unit table `{s:1, m:60}`) the `value` field of the result is
NOT the string "0.0" (it is absent: the branch returns the "0.0" under
the key `eta` instead), and the suffix is NOT the smallest-magnitude
label `"s"` (it is the largest, `"m"`). -/
theorem C3_counterexample :
    (estimate (mkUnits [("s", 1), ("m", 60)]) 10 0 (some 5) 0).value ≠ some "0.0" ∧
    (estimate (mkUnits [("s", 1), ("m", 60)]) 10 0 (some 5) 0).suffix ≠ "s" := by
  decide

/-- C3 (amended): whenever the computed remaining time is not-a-number or
infinite, `estimate` returns a record whose `eta` field is "0.0" while
its `value` field is absent (`undefined` to the caller), and whose suffix
is the LARGEST-magnitude unit label in the table; in particular with
units `{s:1}` only and `current = 0` it returns `{eta:"0.0", suffix:"s"}`. -/
theorem C3_theorem (u : UnitTable) (total curr : ℤ) (elapsed : Option ℚ) (percent : ℚ)
    (h : etaSeconds elapsed percent total curr = none) :
    estimate u total curr elapsed percent =
      ⟨none, some "0.0", u.labels.getD (u.values.length - 1) "undefined"⟩ ∧
    estimate (mkUnits [("s", 1)]) total curr elapsed percent = ⟨none, some "0.0", "s"⟩ := by
  constructor
  · unfold estimate
    rw [h]
  · unfold estimate
    rw [h]
    rfl

theorem C3_witness :
    etaSeconds (some 5) 0 10 0 = none ∧
    (estimate (mkUnits [("s", 1), ("m", 60)]) 10 0 (some 5) 0 =
        ⟨none, some "0.0",
          (mkUnits [("s", 1), ("m", 60)]).labels.getD
            ((mkUnits [("s", 1), ("m", 60)]).values.length - 1) "undefined"⟩ ∧
      estimate (mkUnits [("s", 1)]) 10 0 (some 5) 0 = ⟨none, some "0.0", "s"⟩) :=
  ⟨by decide, C3_theorem (mkUnits [("s", 1), ("m", 60)]) 10 0 (some 5) 0 (by decide)⟩

/-- C5 (counterexample): with the bare-number shorthand
`new ProgressBar(<non-string>, 10)` and a resolvable `process.stderr`,
construction SUCCEEDS even though the format template is absent — yet the
claim's condition for a synchronous throw (absent format) holds, so the
claimed "throws if and only if" equivalence is false at this input. -/
theorem C5_counterexample :
    ctorOk (construct none (CtorArg.num 10) (some demoStream)) = true ∧
    claimedCtorThrow none (CtorArg.num 10) (some demoStream) :=
  ⟨rfl, Or.inr (Or.inl rfl)⟩

/-- C5 (amended): construction throws synchronously if and only if the
options argument is absent (`undefined`: a TypeError at the
`options.stream` access), or no output sink is resolvable, or — only in
the options-object form — the format is not a string or `options.total`
is not of number type.  The bare-number shorthand skips the format and
total checks entirely. -/
theorem C5_theorem :
    ∀ (fmt : Option String) (arg : CtorArg) (ps : Option Stream),
      ctorOk (construct fmt arg ps) = false ↔
        (arg = CtorArg.undef ∨ resolvedSink arg ps = none ∨
          ∃ o, arg = CtorArg.obj o ∧ (fmt = none ∨ o.total = none)) := by
  intro fmt arg ps
  cases arg with
  | undef => simp [construct, ctorOk]
  | num n =>
      cases ps with
      | none => simp [construct, ctorOk, resolvedSink]
      | some st => simp [construct, ctorOk, resolvedSink]
  | obj o =>
      cases hs : o.stream with
      | none =>
          cases ps with
          | none => simp [construct, ctorOk, resolvedSink, hs]
          | some st =>
              cases fmt with
              | none => simp [construct, ctorOk, resolvedSink, hs]
              | some f =>
                  cases ht : o.total with
                  | none => simp [construct, ctorOk, resolvedSink, hs, ht]
                  | some t => simp [construct, ctorOk, resolvedSink, hs, ht]
      | some st0 =>
          cases fmt with
          | none => simp [construct, ctorOk, resolvedSink, hs]
          | some f =>
              cases ht : o.total with
              | none => simp [construct, ctorOk, resolvedSink, hs, ht]
              | some t => simp [construct, ctorOk, resolvedSink, hs, ht]

/-- C6 (counterexample): from a reachable state with `current = 3 > 0`
(a fresh bar with `total = 10` after `tick(3)`), the call `tick(-1)`
strictly DECREASES `current`, contradicting monotonicity. -/
theorem C6_counterexample :
    0 < ((tick (TickArg.num 3) none 0 (mkSimple 10)).1).curr ∧
    ((tick (TickArg.num (-1)) none 1 ((tick (TickArg.num 3) none 0 (mkSimple 10)).1)).1).curr <
      ((tick (TickArg.num 3) none 0 (mkSimple 10)).1).curr := by
  decide

/-- C6 (amended): each `tick` changes `current` by exactly the resolved
delta (an omitted delta or a tokens object counts 1, a numeric delta
counts itself — including negative values), and `update(ratio)` sets
`current` to `floor(ratio * total)`; hence `current` is non-decreasing
only across calls whose resolved delta is non-negative, and backward
adjustment is possible. -/
theorem C6_theorem :
    (∀ (b : Bar) (arg : TickArg) (tok : Option Tokens) (now : ℤ),
      ((tick arg tok now b).1).curr = b.curr + tickLen arg) ∧
    (∀ (b : Bar) (ratio : ℚ) (tok : Option Tokens) (now : ℤ),
      ((update ratio tok now b).1).curr = ⌊ratio * (b.total : ℚ)⌋) := by
  constructor
  · exact fun b arg tok now => tick_fst_curr arg tok now b
  · intro b ratio tok now
    unfold update
    rw [tick_fst_curr]
    show b.curr + (⌊ratio * (b.total : ℚ)⌋ - b.curr) = _
    omega

/-- C7: `update(ratio, tokens)` has exactly the effect (state and event
trace) of `tick(floor(ratio * total) - current, tokens)`; and on a bar
with `total = 3, current = 0`, `update(0.5)` leaves `current = 1`. -/
theorem C7_theorem :
    (∀ (b : Bar) (ratio : ℚ) (tok : Option Tokens) (now : ℤ),
      update ratio tok now b =
        tick (TickArg.num (⌊ratio * (b.total : ℚ)⌋ - b.curr)) tok now b) ∧
    ((update (1 / 2) none 0 (mkSimple 3)).1).curr = 1 ∧
    (mkSimple 3).total = 3 ∧ (mkSimple 3).curr = 0 :=
  ⟨fun _ _ _ _ => rfl, by with_unfolding_all decide, by decide, by decide⟩

/-- C10: on a non-interactive sink, `render(tokens)` still performs its
two leading state changes — it clears the pending-throttle timer handle
(to null) and replaces the stored token set when one is supplied — and
then returns without any stream effect, leaving everything else
unchanged. -/
theorem C10_theorem (b : Bar) (tok : Option Tokens) (now : ℤ)
    (h : b.stream.isTTY = false) :
    render tok now b =
      ({ b with renderThrottleTimeout := false, tokens := tok.getD b.tokens }, []) := by
  have h1 : ({ b with renderThrottleTimeout := false, tokens := tok.getD b.tokens } : Bar).stream.isTTY = false := h
  unfold render renderCore
  rw [if_pos h1]

theorem C10_witness :
    (mkSimple 5).stream.isTTY = false ∧
    render (some [("msg", "hi")]) 7 (mkSimple 5) =
      ({ mkSimple 5 with renderThrottleTimeout := false, tokens := [("msg", "hi")] }, []) :=
  ⟨by decide, C10_theorem (mkSimple 5) (some [("msg", "hi")]) 7 (by decide)⟩

/-- C4: on the finite path, `estimate` selects as suffix the label at the
index computed by the downward walk (`selGo`), that index is the largest
one whose unit value is `≤ r` (with index 0, the smallest unit, as the
fallback when every unit value exceeds `r`), and the returned value is
`r` divided successively by each unit's scale factor from the selected
index down to index 1 (`divChain`, whose closed form is division by the
chained product `prodSeg`), formatted to one decimal place. -/
theorem C4_theorem (t : UnitTable) (total curr : ℤ) (elapsed : Option ℚ) (percent : ℚ) (r : ℚ)
    (hs : List.Sorted (· ≤ ·) t.values) (hr : 0 ≤ r)
    (heta : etaSeconds elapsed percent total curr = some r) :
    (estimate t total curr elapsed percent).suffix =
      t.labels.getD (selGo t.values r (t.values.length - 1)) "undefined" ∧
    (estimate t total curr elapsed percent).value =
      some (toFixed1 (divChain t.values r (selGo t.values r (t.values.length - 1)))) ∧
    divChain t.values r (selGo t.values r (t.values.length - 1)) =
      r / prodSeg t.values (selGo t.values r (t.values.length - 1)) ∧
    (∀ j, j < t.values.length → t.values.getD j 0 ≤ r →
      j ≤ selGo t.values r (t.values.length - 1) ∧
        t.values.getD (selGo t.values r (t.values.length - 1)) 0 ≤ r) ∧
    ((∀ j, j < t.values.length → r < t.values.getD j 0) →
      selGo t.values r (t.values.length - 1) = 0) := by
  refine ⟨?_, ?_, divChain_prodSeg _ _ _, ?_, ?_⟩
  · unfold estimate
    rw [heta]
  · unfold estimate
    rw [heta]
  · intro j hj hv
    have hj1 : j ≤ t.values.length - 1 := by omega
    refine ⟨le_selGo _ _ _ j hj1 hv, ?_⟩
    by_cases h0 : 0 < selGo t.values r (t.values.length - 1)
    · exact selGo_val_le _ _ _ h0
    · have hz : selGo t.values r (t.values.length - 1) = 0 := by omega
      rw [hz]
      exact le_trans (sorted_getD_zero_le t.values hs j hj) hv
  · intro hall
    by_contra hnz
    have h0 : 0 < selGo t.values r (t.values.length - 1) := Nat.pos_of_ne_zero hnz
    have hle : selGo t.values r (t.values.length - 1) ≤ t.values.length - 1 := selGo_le _ _ _
    have hjlt : selGo t.values r (t.values.length - 1) < t.values.length := by omega
    exact absurd (selGo_val_le _ _ _ h0) (not_le.mpr (hall _ hjlt))

theorem C4_witness :
    List.Sorted (· ≤ ·) demoUnits.values ∧ (0 : ℚ) ≤ 60 ∧
    etaSeconds (some 60000) 0 2 1 = some 60 ∧
    ((estimate demoUnits 2 1 (some 60000) 0).suffix =
      demoUnits.labels.getD (selGo demoUnits.values 60 (demoUnits.values.length - 1))
        "undefined" ∧
    (estimate demoUnits 2 1 (some 60000) 0).value =
      some (toFixed1 (divChain demoUnits.values 60
        (selGo demoUnits.values 60 (demoUnits.values.length - 1)))) ∧
    divChain demoUnits.values 60 (selGo demoUnits.values 60 (demoUnits.values.length - 1)) =
      60 / prodSeg demoUnits.values (selGo demoUnits.values 60 (demoUnits.values.length - 1)) ∧
    (∀ j, j < demoUnits.values.length → demoUnits.values.getD j 0 ≤ 60 →
      j ≤ selGo demoUnits.values 60 (demoUnits.values.length - 1) ∧
        demoUnits.values.getD (selGo demoUnits.values 60 (demoUnits.values.length - 1)) 0 ≤ 60) ∧
    ((∀ j, j < demoUnits.values.length → 60 < demoUnits.values.getD j 0) →
      selGo demoUnits.values 60 (demoUnits.values.length - 1) = 0)) :=
  ⟨by decide, by decide, by with_unfolding_all decide,
    C4_theorem demoUnits 2 1 (some 60000) 0 60 (by decide) (by decide)
      (by with_unfolding_all decide)⟩

/-- C8: on every render the ratio `current/total` is clamped into `[0,1]`
before any bar-glyph computation (even when `current < 0` or
`current > total`), the drawn bar is `completeLength` complete glyphs
followed by `effectiveWidth - completeLength` incomplete glyphs with
`completeLength = round(effectiveWidth * ratio)`, both glyph counts are
non-negative, and they sum to the effective bar width. -/
theorem C8_theorem (b : Bar) (now : ℤ) (htot : 0 < b.total) (hw : 0 ≤ b.width) :
    0 ≤ clampRatio b ∧ clampRatio b ≤ 1 ∧
    0 ≤ completeLength b now ∧ completeLength b now ≤ effWidth b now ∧
    completeLength b now + (effWidth b now - completeLength b now) = effWidth b now ∧
    barGlyphs b now =
      strRepeat b.chars.complete (completeLength b now).toNat ++
        strRepeat b.chars.incomplete (effWidth b now - completeLength b now).toNat := by
  have h0 : (0 : ℚ) ≤ clampRatio b := le_min (le_max_right _ _) zero_le_one
  have h1 : clampRatio b ≤ 1 := min_le_right _ _
  have hws : (0 : ℤ) ≤ effWidth b now := le_min hw (le_max_left _ _)
  have hwq : (0 : ℚ) ≤ ((effWidth b now : ℤ) : ℚ) := by exact_mod_cast hws
  have hcl0 : 0 ≤ completeLength b now := by
    unfold completeLength jsRound
    refine Int.floor_nonneg.mpr ?_
    have hmn : (0 : ℚ) ≤ (effWidth b now : ℚ) * clampRatio b := mul_nonneg hwq h0
    linarith
  have hclw : completeLength b now ≤ effWidth b now := by
    unfold completeLength jsRound
    have hle : (effWidth b now : ℚ) * clampRatio b + 1 / 2 ≤ (effWidth b now : ℚ) + 1 / 2 := by
      have := mul_le_of_le_one_right hwq h1
      linarith
    refine le_trans (Int.floor_le_floor hle) ?_
    rw [Int.floor_int_add]
    have hhalf : ⌊(1 : ℚ) / 2⌋ = 0 := by
      rw [Int.floor_eq_zero_iff, Set.mem_Ico]
      constructor <;> norm_num
    rw [hhalf, add_zero]
  exact ⟨h0, h1, hcl0, hclw, by omega, rfl⟩

theorem C8_witness :
    0 < mkSimpleTTY.total ∧ 0 ≤ mkSimpleTTY.width ∧
    (0 ≤ clampRatio mkSimpleTTY ∧ clampRatio mkSimpleTTY ≤ 1 ∧
    0 ≤ completeLength mkSimpleTTY 0 ∧
    completeLength mkSimpleTTY 0 ≤ effWidth mkSimpleTTY 0 ∧
    completeLength mkSimpleTTY 0 +
      (effWidth mkSimpleTTY 0 - completeLength mkSimpleTTY 0) = effWidth mkSimpleTTY 0 ∧
    barGlyphs mkSimpleTTY 0 =
      strRepeat mkSimpleTTY.chars.complete (completeLength mkSimpleTTY 0).toNat ++
        strRepeat mkSimpleTTY.chars.incomplete
          (effWidth mkSimpleTTY 0 - completeLength mkSimpleTTY 0).toNat) :=
  ⟨by decide, by decide, C8_theorem mkSimpleTTY 0 (by decide) (by decide)⟩

/-- C9: rendering is write-idempotent.  On an interactive sink a write
occurs exactly when the newly computed output line differs from the last
drawn line; when they coincide no event is emitted at all and the
last-drawn-line record is unchanged. -/
theorem C9_theorem (b : Bar) (tok : Option Tokens) (now : ℤ)
    (htty : b.stream.isTTY = true) :
    (hasWrite ((render tok now b).2) = true ↔
      b.lastDraw ≠
        renderedLine { b with renderThrottleTimeout := false, tokens := tok.getD b.tokens } now) ∧
    (b.lastDraw =
        renderedLine { b with renderThrottleTimeout := false, tokens := tok.getD b.tokens } now →
      ((render tok now b).1).lastDraw = b.lastDraw ∧ (render tok now b).2 = []) := by
  have h1 : ¬ (({ b with renderThrottleTimeout := false, tokens := tok.getD b.tokens } : Bar).stream.isTTY = false) := by
    show ¬ (b.stream.isTTY = false)
    rw [htty]
    simp
  unfold render renderCore
  rw [if_neg h1]
  by_cases hd : ({ b with renderThrottleTimeout := false, tokens := tok.getD b.tokens } : Bar).lastDraw ≠ renderedLine { b with renderThrottleTimeout := false, tokens := tok.getD b.tokens } now
  · rw [if_pos hd]
    refine ⟨⟨fun _ => hd, fun _ => rfl⟩, fun he => absurd he hd⟩
  · rw [if_neg hd]
    refine ⟨⟨fun hw => absurd hw ?_, fun hne => absurd hne hd⟩, fun _ => ⟨rfl, rfl⟩⟩
    intro hw
    exact Bool.noConfusion hw

theorem C9_witness :
    mkSimpleTTY.stream.isTTY = true ∧
    ((hasWrite ((render none 0 mkSimpleTTY).2) = true ↔
      mkSimpleTTY.lastDraw ≠
        renderedLine
          { mkSimpleTTY with
              renderThrottleTimeout := false,
              tokens := (none : Option Tokens).getD mkSimpleTTY.tokens } 0) ∧
    (mkSimpleTTY.lastDraw =
        renderedLine
          { mkSimpleTTY with
              renderThrottleTimeout := false,
              tokens := (none : Option Tokens).getD mkSimpleTTY.tokens } 0 →
      ((render none 0 mkSimpleTTY).1).lastDraw = mkSimpleTTY.lastDraw ∧
        (render none 0 mkSimpleTTY).2 = [])) :=
  ⟨by decide, C9_theorem mkSimpleTTY none 0 (by decide)⟩

end NodeProgress
